import Mathlib

/-!
Shallow embedding of the core logic of `research_bot.py`: result
normalization for the academic provider, the result-limit loop over the
academic provider's record sequence, the BibTeX citation formatter
(`generate_bibtex`), the display-truncation steps, the export step, and
the top-level search dispatch.

Python dicts with possibly-missing keys are modelled as structures of
`Option` fields; `dict.get(k, default)` becomes `Option.getD`.  Python
strings are Lean `String`s (one `Char` per code point, so `len` is
`String.data.length` and slicing `[:n]` is `List.take n` on the
character list).  Python exceptions that the code does not catch are
modelled by `Option`/an `error` outcome.
-/

/-- Raw `bib` sub-dictionary of a scholarly publication record
(`pub.get('bib', {})`); every key may be absent. -/
structure RawBib where
  title : Option String
  author : Option (List String)
  pub_year : Option String
  abstract : Option String
deriving DecidableEq

/-- Raw scholarly publication record; every key may be absent. -/
structure RawPub where
  bib : Option RawBib
  num_citations : Option Nat
  eprint_url : Option String
  pub_url : Option String
deriving DecidableEq

/-- The default `{}` used by `pub.get('bib', {})`: a dict with no keys. -/
def emptyRawBib : RawBib :=
  { title := none, author := none, pub_year := none, abstract := none }

/-- Normalized result dictionary built by the Scholar branch
(keys `Title`, `Authors`, `Year`, `Cited By`, `Abstract`, `URL`).
The loop always stores every key, but `generate_bibtex` is written
against a general dict, so fields stay optional. -/
structure ResultDict where
  Title : Option String
  Authors : Option String
  Year : Option String
  CitedBy : Option Nat
  Abstract : Option String
  URL : Option String
deriving DecidableEq

/-- Academic record normalization, lines 122-129 of `research_bot.py`:
each field is a `dict.get` with a default; `Authors` joins the raw
author list with a comma-space; `URL` is
`pub.get('eprint_url', pub.get('pub_url', 'N/A'))`. -/
def normalize_academic (pub : RawPub) : ResultDict :=
  let bib := pub.bib.getD emptyRawBib
  { Title := some (bib.title.getD "N/A")
    Authors := some (String.intercalate ", " (bib.author.getD []))
    Year := some (bib.pub_year.getD "N/A")
    CitedBy := some (pub.num_citations.getD 0)
    Abstract := some (bib.abstract.getD "N/A")
    URL := some (pub.eprint_url.getD (pub.pub_url.getD "N/A")) }

/-- Outcome of the Scholar fetch loop: either the accumulated list of
normalized results, or an uncaught exception aborting the query. -/
inductive LoopOutcome where
  | ok (results : List ResultDict)
  | error
deriving DecidableEq

/-- The Scholar fetch loop, lines 115-131.  The provider's record
sequence is a list; a `none` entry is a malformed record on which
normalization raises.  One `for`-iteration pulls one item (bound but
never inspected), checks `i >= num_results`, then `next(search_query)`
pulls a second item which is normalized and appended; `StopIteration`
from that `next` is caught and breaks the loop, any other exception
propagates and discards the whole batch. -/
def scholarLoopGo : Nat → Nat → List (Option RawPub) → LoopOutcome
  | _, _, [] => .ok []
  | i, n, _ :: rest =>
    if i ≥ n then .ok []
    else
      match rest with
      | [] => .ok []
      | none :: _ => .error
      | some pub :: rest2 =>
        match scholarLoopGo (i + 1) n rest2 with
        | .ok rs => .ok (normalize_academic pub :: rs)
        | .error => .error

/-- Scholar branch: run the fetch loop from index 0. -/
def scholarLoop (items : List (Option RawPub)) (num_results : Nat) : LoopOutcome :=
  scholarLoopGo 0 num_results items

/-- Python `[:n]` slicing on a string: the first `n` code points. -/
def py_take (s : String) (n : Nat) : String :=
  String.mk (s.data.take n)

/-- `str.split(', ')` on the character list: split at every
non-overlapping occurrence of comma-space, keeping empty pieces. -/
def split_comma_space : List Char → List (List Char)
  | [] => [[]]
  | [c] => [[c]]
  | c1 :: c2 :: cs =>
    if c1 = ',' ∧ c2 = ' ' then
      [] :: split_comma_space cs
    else
      match split_comma_space (c2 :: cs) with
      | [] => [[c1]]
      | p :: ps => (c1 :: p) :: ps

/-- `authors.split(', ')`, line 37. -/
def py_split_authors (authors : String) : List String :=
  (split_comma_space authors.data).map String.mk

/-- `str.split()` (no argument): maximal runs of non-whitespace
characters; whitespace-only input gives the empty list. -/
def py_words : List Char → List (List Char)
  | [] => []
  | c :: cs =>
    if c.isWhitespace then py_words cs
    else
      match cs with
      | [] => [[c]]
      | c2 :: _ =>
        if c2.isWhitespace then [c] :: py_words cs
        else
          match py_words cs with
          | [] => [[c]]
          | w :: ws => (c :: w) :: ws

/-- `author.split()[-1]`, line 41: the last whitespace-separated word;
`none` models the `IndexError` raised when `split()` is empty. -/
def last_name (author : String) : Option String :=
  ((py_words author.data).map String.mk).getLast?

/-- Line 41: `author_list[0].split()[-1] if author_list and
author_list[0] else 'unknown'`, computed from the record's `Authors`
field via lines 29 and 37. -/
def first_author_of (r : ResultDict) : Option String :=
  let authors := r.Authors.getD "Unknown Author"
  let author_list := py_split_authors authors
  if author_list ≠ [] ∧ author_list.headD "" ≠ "" then
    last_name (author_list.headD "")
  else
    some "unknown"

/-- The year expression used twice in `generate_bibtex` (key and year
field): `year if year != 'N/A' else 'unknown'`. -/
def year_field (year : String) : String :=
  if year ≠ "N/A" then year else "unknown"

/-- The url expression of the output block: `url if url else 'N/A'`. -/
def url_field (url : String) : String :=
  if url ≠ "" then url else "N/A"

/-- Line 42: `bibtex_key = f"{first_author}{year if year != 'N/A' else
'unknown'}{index}"`; `none` propagates the `IndexError` from the
last-name lookup. -/
def bibtex_key_of (r : ResultDict) (index : Nat) : Option String :=
  (first_author_of r).map
    (fun fa => fa ++ year_field (r.Year.getD "N/A") ++ Nat.repr index)

/-- Line 34: `re.sub(r'[{}]', '', title)` — drop every brace character
(code points 123 and 125). -/
def sanitize_title (title : String) : String :=
  String.mk (title.data.filter (fun c => !(c == Char.ofNat 123 || c == Char.ofNat 125)))

/-- `generate_bibtex(result, index)`, lines 27-51, as a state-passing
function: the pair is (returned text, the record after the call).  The
body only reads the record through `.get`, so the state component is
the unchanged input.  The text is `none` exactly when the last-name
lookup on line 41 raises `IndexError`. -/
def generate_bibtex_st (result : ResultDict) (index : Nat) : Option String × ResultDict :=
  let title := result.Title.getD "Untitled"
  let authors := result.Authors.getD "Unknown Author"
  let year := result.Year.getD "N/A"
  let url := result.URL.getD ""
  let title := sanitize_title title
  let author_list := py_split_authors authors
  let bibtex_author :=
    if author_list ≠ [] then String.intercalate " and " author_list
    else "Unknown Author"
  match bibtex_key_of result index with
  | none => (none, result)
  | some key =>
    (some ("@article\x7b" ++ key ++ ",\n    title = \x7b" ++ title ++
      "\x7d,\n    author = \x7b" ++ bibtex_author ++
      "\x7d,\n    year = \x7b" ++ year_field year ++
      "\x7d,\n    url = \x7b" ++ url_field url ++ "\x7d\n\x7d"), result)

/-- The text returned by `generate_bibtex`. -/
def generate_bibtex (result : ResultDict) (index : Nat) : Option String :=
  (generate_bibtex_st result index).1

/-- Abstract display step, line 139: the whole written string is the
prefixed 200-character slice plus ellipsis when `len > 200`, else the
raw abstract. -/
def abstract_display (abstract : String) : String :=
  if abstract.data.length > 200 then
    "**Abstract:** " ++ py_take abstract 200 ++ "..."
  else
    abstract

/-- Snippet display step, line 165: the 150-character slice plus an
unconditional ellipsis. -/
def snippet_display (body : String) : String :=
  "**Snippet:** " ++ py_take body 150 ++ "..."

/-- Download file name for the BibTeX button, line 147:
`f"citation_{idx+1}_{<timestamp>}.bib"`; the formatted current time is
an input. -/
def download_file_name (idx : Nat) (now : String) : String :=
  "citation_" ++ Nat.repr (idx + 1) ++ "_" ++ now ++ ".bib"

/-- The BibTeX export step, lines 143-148: the button's data is
`generate_bibtex(result, idx)` and its file name embeds the current
time. -/
def bibtex_export (result : ResultDict) (idx : Nat) (now : String) :
    Option String × String :=
  (generate_bibtex result idx, download_file_name idx now)

/-- Raw web search record from the DuckDuckGo adapter. -/
structure WebRaw where
  title : String
  body : String
  href : String
deriving DecidableEq

/-- Search type selected in the sidebar. -/
inductive SearchType where
  | scholar
  | web
deriving DecidableEq

/-- Visible outcome of pressing the Search button. -/
inductive AppOutput where
  | warning (msg : String)
  | scholarResults (out : LoopOutcome)
  | webResults (rs : List WebRaw)
deriving DecidableEq

/-- Top-level dispatch after the Search button, lines 110-174: a truthy
(non-empty) query runs the selected provider branch; an empty query
falls to the `else` and only emits the warning. -/
def search_action (query : String) (stype : SearchType) (num_results : Nat)
    (scholarItems : List (Option RawPub)) (webItems : List WebRaw) : AppOutput :=
  if query ≠ "" then
    match stype with
    | .scholar => .scholarResults (scholarLoop scholarItems num_results)
    | .web => .webResults webItems
  else
    .warning "Please enter a query to start your research! 🎓"

/-! ### Concrete records used in the example-based theorems. -/

/-- The spec's example raw academic record: abstract and e-print URL are
present but empty, and there is no publication-page key. -/
def pubGoodfellow : RawPub :=
  { bib := some { title := some "Deep Learning"
                  author := some ["Ian Goodfellow", "Yoshua Bengio"]
                  pub_year := some "2016"
                  abstract := some "" }
    num_citations := some 50000
    eprint_url := some ""
    pub_url := none }

/-- A second well-formed raw record for multi-record sequences. -/
def pubSecond : RawPub :=
  { bib := some { title := some "Attention Is All You Need"
                  author := some ["Ashish Vaswani"]
                  pub_year := some "2017"
                  abstract := some "Transformers." }
    num_citations := some 100000
    eprint_url := none
    pub_url := some "https://example.org/attention" }

/-- A raw `bib` dict that only carries a title. -/
def bibBare : RawBib :=
  { title := some "T", author := none, pub_year := none, abstract := none }

/-- A raw record with no abstract, e-print or publication-page keys. -/
def pubBare : RawPub :=
  { bib := some bibBare, num_citations := none, eprint_url := none, pub_url := none }

/-- The spec's example normalized record (Year 2016). -/
def resGoodfellow2016 : ResultDict :=
  { Title := some "Deep Learning"
    Authors := some "Ian Goodfellow, Yoshua Bengio"
    Year := some "2016"
    CitedBy := some 50000
    Abstract := some "N/A"
    URL := some "N/A" }

/-- The same record with Year `"N/A"` and an empty URL. -/
def resYearNA : ResultDict :=
  { Title := some "Deep Learning"
    Authors := some "Ian Goodfellow, Yoshua Bengio"
    Year := some "N/A"
    CitedBy := some 50000
    Abstract := some "N/A"
    URL := some "" }

/-- Key-collision record: first-author surname `A`, year `1`. -/
def resKeyA : ResultDict :=
  { Title := some "P1", Authors := some "X A", Year := some "1"
    CitedBy := none, Abstract := none, URL := none }

/-- Key-collision record: first-author surname `A1`, year `1`. -/
def resKeyB : ResultDict :=
  { Title := some "P2", Authors := some "X A1", Year := some "1"
    CitedBy := none, Abstract := none, URL := none }

/-- A record whose first (and only) author entry is a single space. -/
def resWhitespaceAuthor : ResultDict :=
  { Title := some "T", Authors := some " ", Year := some "2020"
    CitedBy := none, Abstract := none, URL := none }

/-- Decimal value of a digit-character list, used to invert
`Nat.toDigitsCore`. -/
def strVal (l : List Char) : Nat :=
  l.foldl (fun a c => a * 10 + (c.toNat - 48)) 0

/-! ### Helper lemmas: injectivity of the decimal representation of a
natural number, and cancellation for string concatenation. -/

theorem toDigitsCore_append :
    ∀ (fuel n : Nat) (ds : List Char),
      Nat.toDigitsCore 10 fuel n ds = Nat.toDigitsCore 10 fuel n [] ++ ds
  | 0, _, _ => rfl
  | fuel + 1, n, ds => by
    simp only [Nat.toDigitsCore]
    by_cases h10 : n / 10 = 0
    · simp [h10]
    · rw [if_neg h10, if_neg h10,
        toDigitsCore_append fuel (n / 10) (Nat.digitChar (n % 10) :: ds),
        toDigitsCore_append fuel (n / 10) [Nat.digitChar (n % 10)],
        List.append_assoc]
      rfl

theorem strVal_toDigitsCore :
    ∀ (fuel n : Nat), n < fuel → strVal (Nat.toDigitsCore 10 fuel n []) = n
  | 0, n, h => absurd h (Nat.not_lt_zero n)
  | fuel + 1, n, h => by
    have hd10 : ∀ d : Nat, d < 10 → (Nat.digitChar d).toNat - 48 = d := by decide
    simp only [Nat.toDigitsCore]
    by_cases h10 : n / 10 = 0
    · have hn : n < 10 := by omega
      rw [if_pos h10]
      show 0 * 10 + ((Nat.digitChar (n % 10)).toNat - 48) = n
      rw [hd10 (n % 10) (Nat.mod_lt n (by decide))]
      omega
    · have hlt : n / 10 < fuel := by omega
      rw [if_neg h10, toDigitsCore_append]
      show strVal (Nat.toDigitsCore 10 fuel (n / 10) [] ++ [Nat.digitChar (n % 10)]) = n
      unfold strVal
      rw [List.foldl_append]
      show (strVal (Nat.toDigitsCore 10 fuel (n / 10) [])) * 10 +
        ((Nat.digitChar (n % 10)).toNat - 48) = n
      rw [strVal_toDigitsCore fuel (n / 10) hlt,
        hd10 (n % 10) (Nat.mod_lt n (by decide))]
      omega

theorem strVal_repr (n : Nat) : strVal (Nat.repr n).data = n :=
  strVal_toDigitsCore (n + 1) n (Nat.lt_succ_self n)

theorem natRepr_injective {m n : Nat} (h : Nat.repr m = Nat.repr n) : m = n := by
  have h2 := congrArg (fun s => strVal s.data) h
  simp only at h2
  rwa [strVal_repr, strVal_repr] at h2

theorem string_data_append (s t : String) : (s ++ t).data = s.data ++ t.data := by
  cases s
  cases t
  rfl

theorem string_data_injective {s t : String} (h : s.data = t.data) : s = t := by
  cases s
  cases t
  exact congrArg String.mk h

theorem string_append_left_cancel {s t₁ t₂ : String} (h : s ++ t₁ = s ++ t₂) :
    t₁ = t₂ := by
  have hd := congrArg String.data h
  rw [string_data_append, string_data_append] at hd
  exact string_data_injective ((List.append_right_inj s.data).mp hd)

/-! ### Claim theorems. -/

/-- C1: the Scholar loop advances the provider iterator twice per stored
record, so a 1-record sequence with MaxResults 1 yields 0 results instead
of `min(1,1) = 1`, and a 2-record sequence with MaxResults 5 yields only
the second record instead of both. -/
theorem c1_scholar_loop_undercount :
    scholarLoop [some pubGoodfellow] 1 = LoopOutcome.ok [] ∧
    scholarLoop [some pubGoodfellow, some pubSecond] 5 =
      LoopOutcome.ok [normalize_academic pubSecond] ∧
    min 1 1 = 1 ∧ min 2 5 = 2 :=
  ⟨rfl, rfl, rfl, rfl⟩

/-- C2 counterexample: a 3-character web body is at most 150 characters
long, yet the snippet display step does not pass it through unchanged —
it prefixes it and unconditionally appends the ellipsis. -/
theorem c2_snippet_counterexample :
    ("abc" : String).data.length ≤ 150 ∧
    snippet_display "abc" = "**Snippet:** abc..." ∧
    snippet_display "abc" ≠ "abc" := by
  refine ⟨by decide, rfl, by decide⟩

/-- C2 amended: the academic abstract display passes text of length at
most 200 through unchanged with no ellipsis, but the web snippet display
appends the ellipsis suffix even when the body is at most 150 characters
(it never passes the text through unchanged). -/
theorem c2_truncation_amended (a b : String)
    (ha : a.data.length ≤ 200) (hb : b.data.length ≤ 150) :
    abstract_display a = a ∧
    snippet_display b = "**Snippet:** " ++ b ++ "..." := by
  constructor
  · unfold abstract_display
    rw [if_neg (by omega)]
  · unfold snippet_display py_take
    rw [List.take_of_length_le hb]

/-- C2 witness: the amended truncation statement at concrete short
inputs. -/
theorem c2_truncation_witness :
    abstract_display "short abstract" = "short abstract" ∧
    snippet_display "web body" = "**Snippet:** " ++ "web body" ++ "..." :=
  c2_truncation_amended "short abstract" "web body" (by decide) (by decide)

/-- C3 counterexample: when Year is `"N/A"`, the year expression used in
the rendered output block is `"unknown"`, not `"N/A"`: the full BibTeX
block for the Goodfellow record with Year `"N/A"` at ordinal 0 reads
`year = {unknown}`. -/
theorem c3_year_field_counterexample :
    year_field "N/A" = "unknown" ∧ ("unknown" : String) ≠ "N/A" ∧
    generate_bibtex resYearNA 0 =
      some ("@article\x7bGoodfellowunknown0,\n    title = \x7bDeep Learning\x7d,\n    author = \x7bIan Goodfellow and Yoshua Bengio\x7d,\n    year = \x7bunknown\x7d,\n    url = \x7bN/A\x7d\n\x7d") := by
  refine ⟨rfl, by decide, rfl⟩

/-- C3 amended: when Year is `"N/A"` the placeholder `"unknown"` is
substituted both in the citation key and in the year field rendered in
the output block (the literal `"N/A"` survives only in the record
itself); the key for the Goodfellow/2016 record at ordinal 0 is
`"Goodfellow20160"`. -/
theorem c3_year_amended (r : ResultDict) (i : Nat) (fa : String)
    (hy : r.Year = some "N/A") (hfa : first_author_of r = some fa) :
    bibtex_key_of r i = some (fa ++ "unknown" ++ Nat.repr i) ∧
    year_field (r.Year.getD "N/A") = "unknown" ∧
    bibtex_key_of resGoodfellow2016 0 = some "Goodfellow20160" := by
  refine ⟨?_, ?_, by decide⟩
  · unfold bibtex_key_of
    rw [hfa, hy]
    rfl
  · rw [hy]
    rfl

/-- C3 witness: the amended year-placeholder statement at ordinal 7 on
the concrete record with Year `"N/A"`. -/
theorem c3_year_witness :
    bibtex_key_of resYearNA 7 = some ("Goodfellow" ++ "unknown" ++ Nat.repr 7) ∧
    year_field (resYearNA.Year.getD "N/A") = "unknown" ∧
    bibtex_key_of resGoodfellow2016 0 = some "Goodfellow20160" :=
  c3_year_amended resYearNA 7 "Goodfellow" rfl (by decide)

/-- C4 counterexample: on the spec's example raw record (abstract and
e-print URL present but empty) normalization keeps the empty strings —
it does not substitute `"N/A"`. -/
theorem c4_empty_fields_counterexample :
    (normalize_academic pubGoodfellow).Abstract = some "" ∧
    (normalize_academic pubGoodfellow).URL = some "" ∧
    normalize_academic pubGoodfellow =
      { Title := some "Deep Learning"
        Authors := some "Ian Goodfellow, Yoshua Bengio"
        Year := some "2016"
        CitedBy := some 50000
        Abstract := some ""
        URL := some "" } ∧
    ("" : String) ≠ "N/A" := by
  refine ⟨rfl, rfl, by decide, by decide⟩

/-- C4 amended: the `"N/A"` defaults apply only when the raw keys are
absent: a record whose bib carries no abstract normalizes to Abstract
`"N/A"`, and URL falls back to `"N/A"` only when both link keys are
missing; a present-but-empty abstract or e-print link passes through as
the empty string. -/
theorem c4_defaults_amended (pub : RawPub) (b : RawBib)
    (hb : pub.bib = some b) (ha : b.abstract = none)
    (he : pub.eprint_url = none) (hp : pub.pub_url = none) :
    ((normalize_academic pub).Abstract = some "N/A" ∧
     (normalize_academic pub).URL = some "N/A") ∧
    ((normalize_academic pubGoodfellow).Abstract = some "" ∧
     (normalize_academic pubGoodfellow).URL = some "") := by
  refine ⟨⟨?_, ?_⟩, rfl, rfl⟩
  · simp [normalize_academic, hb, ha]
  · simp [normalize_academic, he, hp]

/-- C4 witness: the amended default behavior on a record with no
abstract and no link keys. -/
theorem c4_defaults_witness :
    ((normalize_academic pubBare).Abstract = some "N/A" ∧
     (normalize_academic pubBare).URL = some "N/A") ∧
    ((normalize_academic pubGoodfellow).Abstract = some "" ∧
     (normalize_academic pubGoodfellow).URL = some "") :=
  c4_defaults_amended pubBare bibBare rfl rfl rfl rfl

/-- C5 counterexample: with a malformed record in the position consumed
by the detail-fetch `next`, the whole query aborts; the two following
valid records are not returned. -/
theorem c5_malformed_aborts_counterexample :
    scholarLoop [some pubGoodfellow, none, some pubSecond, some pubSecond] 4 =
      LoopOutcome.error ∧
    LoopOutcome.error ≠ LoopOutcome.ok [] := by
  refine ⟨rfl, by decide⟩

/-- C5 amended: a record-level normalization failure is not skipped: the
loop catches only `StopIteration`, so a malformed record reached by the
detail-fetch `next` aborts the whole query, discarding every other
record, whenever the limit is at least 1. -/
theorem c5_malformed_aborts_amended (p : RawPub) (rest : List (Option RawPub))
    (n : Nat) (h : 1 ≤ n) :
    scholarLoop (some p :: none :: rest) n = LoopOutcome.error := by
  unfold scholarLoop
  show scholarLoopGo 0 n (some p :: none :: rest) = LoopOutcome.error
  unfold scholarLoopGo
  rw [if_neg (by omega)]

/-- C5 witness: the amended abort behavior on a concrete 3-record
sequence with limit 2. -/
theorem c5_malformed_aborts_witness :
    scholarLoop [some pubGoodfellow, none, some pubSecond] 2 = LoopOutcome.error :=
  c5_malformed_aborts_amended pubGoodfellow [some pubSecond] 2 (by decide)

/-- C6 counterexample: citation keys are not unique for arbitrary pairs
of distinct ordinals: surname `A` with year `1` at ordinal 12 and
surname `A1` with year `1` at ordinal 2 both give the key `"A112"`. -/
theorem c6_key_collision_counterexample :
    bibtex_key_of resKeyA 12 = bibtex_key_of resKeyB 2 ∧
    bibtex_key_of resKeyA 12 = some "A112" ∧ (12 : Nat) ≠ 2 := by
  refine ⟨rfl, rfl, by decide⟩

/-- C6 amended: for two results sharing the same first-author surname
and the same year, the citation keys at distinct ordinals always differ,
because the decimal ordinal is appended to the shared prefix. -/
theorem c6_key_uniqueness_amended (r₁ r₂ : ResultDict) (i j : Nat) (fa : String)
    (h₁ : first_author_of r₁ = some fa) (h₂ : first_author_of r₂ = some fa)
    (hy : r₁.Year.getD "N/A" = r₂.Year.getD "N/A") (hij : i ≠ j) :
    bibtex_key_of r₁ i ≠ bibtex_key_of r₂ j := by
  unfold bibtex_key_of
  rw [h₁, h₂, hy]
  intro h
  have h3 : fa ++ year_field (r₂.Year.getD "N/A") ++ Nat.repr i =
      fa ++ year_field (r₂.Year.getD "N/A") ++ Nat.repr j := Option.some.inj h
  exact hij (natRepr_injective (string_append_left_cancel h3))

/-- C6 witness: two copies of the Goodfellow/2016 record at ordinals 0
and 1 get distinct keys. -/
theorem c6_key_uniqueness_witness :
    bibtex_key_of resGoodfellow2016 0 ≠ bibtex_key_of resGoodfellow2016 1 :=
  c6_key_uniqueness_amended resGoodfellow2016 resGoodfellow2016 0 1 "Goodfellow"
    (by decide) (by decide) rfl (by decide)

/-- C7: title sanitization removes every occurrence of the brace
characters (code points 123 and 125) — every character of the sanitized
title is a non-brace — and on `"Neural {Nets} Revisited"` it returns
`"Neural Nets Revisited"`. -/
theorem c7_sanitize_removes_braces (t : String) :
    (sanitize_title t).data.all
      (fun c => !(c == Char.ofNat 123 || c == Char.ofNat 125)) = true ∧
    sanitize_title "Neural \x7bNets\x7d Revisited" = "Neural Nets Revisited" := by
  refine ⟨?_, by decide⟩
  rw [List.all_eq_true]
  intro c hc
  have hc2 : c ∈ t.data.filter (fun c => !(c == Char.ofNat 123 || c == Char.ofNat 125)) := hc
  exact @List.of_mem_filter Char (fun c => !(c == Char.ofNat 123 || c == Char.ofNat 125)) c t.data hc2

/-- C8: on the empty query, the search action emits only the user-facing
warning, for every search type, limit, and provider adapter contents —
so no adapter is consulted and no results are produced. -/
theorem c8_empty_query_noop (stype : SearchType) (n : Nat)
    (scholarItems : List (Option RawPub)) (webItems : List WebRaw) :
    search_action "" stype n scholarItems webItems =
      AppOutput.warning "Please enter a query to start your research! 🎓" := by
  unfold search_action
  rw [if_neg (by decide)]

/-- C9 counterexample: on a record whose only author entry is a single
space, the last-name lookup `author_list[0].split()[-1]` indexes an
empty list, so `generate_bibtex` raises instead of returning text. -/
theorem c9_whitespace_author_counterexample :
    generate_bibtex resWhitespaceAuthor 0 = none := by decide

/-- C9 amended: `generate_bibtex` never writes to the record — the state
after the call is the input record — and it returns a text value
whenever the first-author last-name lookup succeeds (it raises exactly
when the first author entry is nonempty whitespace). -/
theorem c9_frame_amended (r : ResultDict) (i : Nat) :
    (generate_bibtex_st r i).2 = r ∧
    ((first_author_of r).isSome → (generate_bibtex_st r i).1.isSome) := by
  constructor
  · unfold generate_bibtex_st
    cases h : bibtex_key_of r i <;> simp [h]
  · intro hs
    rcases hfa : first_author_of r with _ | fa
    · rw [hfa] at hs
      simp at hs
    · simp [generate_bibtex_st, bibtex_key_of, hfa]

/-- C9 witness: the frame and text-return statement on the concrete
Goodfellow record at ordinal 3, with the hypothesis discharged. -/
theorem c9_frame_witness :
    (generate_bibtex_st resGoodfellow2016 3).2 = resGoodfellow2016 ∧
    (generate_bibtex_st resGoodfellow2016 3).1.isSome :=
  ⟨(c9_frame_amended resGoodfellow2016 3).1,
   (c9_frame_amended resGoodfellow2016 3).2 (by decide)⟩

/-- C10: the BibTeX text handed to the download button is independent of
the current time: two export runs over the same record and ordinal with
different timestamps produce identical text, while the download file
name does embed the timestamp. -/
theorem c10_bibtex_deterministic (r : ResultDict) (i : Nat) (now₁ now₂ : String) :
    (bibtex_export r i now₁).1 = (bibtex_export r i now₂).1 ∧
    download_file_name 0 "20250101_000000" ≠ download_file_name 0 "20250102_000000" :=
  ⟨rfl, by decide⟩

/-- C10 witness: determinism at a concrete record, ordinal, and two
distinct timestamps. -/
theorem c10_bibtex_deterministic_witness :
    (bibtex_export resGoodfellow2016 0 "20250101_000000").1 =
      (bibtex_export resGoodfellow2016 0 "20250102_000000").1 ∧
    download_file_name 0 "20250101_000000" ≠ download_file_name 0 "20250102_000000" :=
  c10_bibtex_deterministic resGoodfellow2016 0 "20250101_000000" "20250102_000000"
